import Mathlib

/-!
Verification of the provider-abstraction and connection-state layer of the
`nexus-ocw` wallet-unification library.

The development shallowly embeds the JavaScript source:

* `src/unnamed/part_003` — the data normalizers (`normalizeBalance`);
* `src/inscriptions local/01-base-provider.js` — the `BaseWalletProvider`
  class (feature flags, `supportsMethod`, `safeCall`, `pushPsbt`, `pushTx`,
  `getAllInscriptions` pagination loop);
* `src/inscriptions local/10-magiceden-provider.js` — the Magic Eden
  adapter's feature flags and its `getBalance` override;
* `src/unnamed/part_008` — the facade / connection-state store
  (`setState`, `getState`, `subscribe`, `connect`, `disconnect`,
  `getBalance`).

JavaScript numbers are modelled as rationals (`ℚ`), possibly-absent object
fields as `Option`, promise rejection as `Except String` (the source raises
plain `Error(message)` values, so errors are carried as their message
strings), and object identity — where it matters, for the subscriber
aliasing question — as references into an explicit heap.
-/

namespace NexusOcw

/-- JavaScript `a || b` on a possibly-undefined numeric field: `undefined`
and `0` are falsy, any other number is returned unchanged. -/
def jsOrQ : Option ℚ → ℚ → ℚ
  | some v, d => if v = 0 then d else v
  | none, d => d

/-- JavaScript truthiness of a possibly-undefined string field:
`undefined`, `null` and `""` are falsy. -/
def jsTruthyStr : Option String → Bool
  | none => false
  | some s => !(s == "")

/-! ## Balance normalizer (`src/unnamed/part_003`, `normalizeBalance`) -/

/-- The raw balance object handed to `normalizeBalance`: every field the
function reads, each possibly absent (`undefined`). -/
structure RawBalance where
  confirmed : Option ℚ := none
  amount : Option ℚ := none
  total : Option ℚ := none
  unconfirmed : Option ℚ := none
  pending : Option ℚ := none
  confirm : Option ℚ := none
deriving DecidableEq, Repr

/-- `normalizeBalance` accepts either a bare number or an object. -/
inductive BalanceInput where
  | number (n : ℚ)
  | obj (o : RawBalance)
deriving DecidableEq, Repr

/-- The canonical balance shape `{confirmed, unconfirmed, total}`. -/
structure CanonBalance where
  confirmed : ℚ
  unconfirmed : ℚ
  total : ℚ
deriving DecidableEq, Repr

/-- Embedding of `normalizeBalance(balance, walletName)`
(`src/unnamed/part_003` lines 65–100).  The intermediate
`normalized.total = balance.total || (confirmed + unconfirmed)` assignment
of the source is kept (as `total₀`) even though the function unconditionally
overwrites it with `confirmed + unconfirmed` before returning. -/
def normalizeBalance (balance : BalanceInput) (walletName : String) : CanonBalance :=
  match balance with
  | .number n => { confirmed := n, unconfirmed := 0, total := n }
  | .obj o =>
    let confirmed₀ := jsOrQ o.confirmed (jsOrQ o.amount (jsOrQ o.total 0))
    let unconfirmed₀ := jsOrQ o.unconfirmed (jsOrQ o.pending 0)
    let total₀ := jsOrQ o.total (confirmed₀ + unconfirmed₀)
    let (confirmed₁, unconfirmed₁) :=
      match walletName with
      | "Xverse" => (jsOrQ o.confirmed 0, jsOrQ o.unconfirmed 0)
      | "UniSat" =>
          (jsOrQ o.confirm (jsOrQ o.confirmed 0), jsOrQ o.pending (jsOrQ o.unconfirmed 0))
      | _ => (confirmed₀, unconfirmed₀)
    let _ := total₀
    { confirmed := confirmed₁, unconfirmed := unconfirmed₁,
      total := confirmed₁ + unconfirmed₁ }

/-- The already-canonical object `{confirmed: c, unconfirmed: u, total: c+u}`
used by the idempotence claim. -/
def canonObj (c u : ℕ) : BalanceInput :=
  .obj { confirmed := some (c : ℚ), unconfirmed := some (u : ℚ),
         total := some ((c : ℚ) + (u : ℚ)) }

/-! ## Base provider (`src/inscriptions local/01-base-provider.js`) -/

/-- A node of a feature-flag map: a boolean leaf, a nested object of named
sub-flags, or `undefined` (the value of a missing property lookup). -/
inductive JsFeat where
  | bool (b : Bool)
  | obj (fields : List (String × JsFeat))
  | undefinedVal

/-- JavaScript `current === true` on a feature node. -/
def JsFeat.isTrue : JsFeat → Bool
  | .bool true => true
  | _ => false

/-- JavaScript property lookup `current[part]` on a feature object:
a missing key yields `undefined`. -/
def featLookup (fields : List (String × JsFeat)) (key : String) : JsFeat :=
  match fields.find? (fun kv => kv.1 == key) with
  | some kv => kv.2
  | none => .undefinedVal

/-- Embedding of `BaseWalletProvider.supportsMethod(methodPath)`
(`01-base-provider.js` lines 84–97).  The dot-separated `methodPath` is
modelled pre-split into its parts (the source calls
`methodPath.split('.')`).  The walk descends through object nodes; as soon
as the current node is not an object the result is whether that node is
literally `true`; after the walk the result is again whether the final node
is literally `true`. -/
def supportsMethod (features : JsFeat) : List String → Bool
  | [] => features.isTrue
  | part :: rest =>
    match features with
    | .obj fields => supportsMethod (featLookup fields part) rest
    | cur => cur.isTrue

/-- The browser-injected wallet object, restricted to the methods the
embedded operations reach: each method is present (`some`, with its
behaviour as a function to a settled promise) or absent (`none`). -/
structure WalletHandle where
  pushPsbt : Option (String → Except String String) := none
  pushTx : Option (String → Except String String) := none
deriving Inhabited

/-- The mutable fields of a `BaseWalletProvider` instance that the embedded
operations read. -/
structure ProviderState where
  name : String
  isConnected : Bool
  address : Option String
  walletInstance : Option WalletHandle
  features : JsFeat

/-- `requireInstalled()` — `some errorMessage` when it throws. -/
def requireInstalled (p : ProviderState) : Option String :=
  match p.walletInstance with
  | none => some (p.name ++ " wallet not installed or not detected")
  | some _ => none

/-- `requireConnected()` — `some errorMessage` when it throws
(`!this.isConnected || !this.address`). -/
def requireConnected (p : ProviderState) : Option String :=
  if !p.isConnected || !jsTruthyStr p.address then
    some (p.name ++ " wallet not connected. Please connect first.")
  else
    none

/-- Embedding of `safeCall(methodPath, callback)` with the default error
message (`01-base-provider.js` lines 105–110): the callback runs only when
the feature flag resolves to `true`; the boolean in the result records
whether the callback ran.  `pathStr` is the original dot-separated string
(used in the error message), `path` its pre-split parts. -/
def safeCall (p : ProviderState) (path : List String) (pathStr : String)
    (callback : Except String α × Bool) : Except String α × Bool :=
  if supportsMethod p.features path then callback
  else (.error (p.name ++ " does not support " ++ pathStr), false)

/-- Embedding of `BaseWalletProvider.pushPsbt(psbtHex)`
(`01-base-provider.js` lines 262–273): `requireInstalled`,
`requireConnected`, then `safeCall('pushPsbt', …)` whose callback invokes
`walletInstance.pushPsbt` when present and otherwise throws
`"<name>: pushPsbt not implemented"`.  The boolean records whether the
underlying handle's method was invoked. -/
def basePushPsbt (p : ProviderState) (psbtHex : String) : Except String String × Bool :=
  match requireInstalled p with
  | some e => (.error e, false)
  | none =>
    match requireConnected p with
    | some e => (.error e, false)
    | none =>
      safeCall p ["pushPsbt"] "pushPsbt"
        (match (p.walletInstance.getD default).pushPsbt with
         | some f => (f psbtHex, true)
         | none => (.error (p.name ++ ": pushPsbt not implemented"), false))

/-- Embedding of `BaseWalletProvider.pushTx(rawTx)` (`01-base-provider.js`
lines 278–289), structured exactly like `basePushPsbt`. -/
def basePushTx (p : ProviderState) (rawTx : String) : Except String String × Bool :=
  match requireInstalled p with
  | some e => (.error e, false)
  | none =>
    match requireConnected p with
    | some e => (.error e, false)
    | none =>
      safeCall p ["pushTx"] "pushTx"
        (match (p.walletInstance.getD default).pushTx with
         | some f => (f rawTx, true)
         | none => (.error (p.name ++ ": pushTx not implemented"), false))

/-! ## Magic Eden adapter (`src/inscriptions local/10-magiceden-provider.js`) -/

/-- The Magic Eden feature-flag map (`10-magiceden-provider.js` lines
37–60). -/
def magicEdenFeatures : JsFeat :=
  .obj
    [ ("connect", .bool true)
    , ("getAddress", .bool true)
    , ("getPublicKey", .bool false)
    , ("getBalance", .bool false)
    , ("getNetwork", .bool true)
    , ("switchNetwork", .bool false)
    , ("signMessage", .bool true)
    , ("signPsbt", .bool true)
    , ("signPsbts", .bool true)
    , ("signTransaction", .bool true)
    , ("pushPsbt", .bool false)
    , ("pushTx", .bool false)
    , ("sendBitcoin", .bool true)
    , ("sendInscription", .bool false)
    , ("getInscriptions", .bool false)
    , ("getAllInscriptions", .bool false)
    , ("inscribe", .bool false)
    , ("brc20", .obj [("transfer", .bool false), ("deploy", .bool false), ("mint", .bool false)])
    , ("runes", .obj [("send", .bool false), ("mint", .bool false), ("etch", .bool false)])
    , ("atomicals", .obj [("transfer", .bool false), ("mint", .bool false)])
    , ("arc20", .obj [("transfer", .bool false)])
    , ("jwtAuth", .bool true)
    , ("hardwareDetection", .bool true)
    ]

/-- Embedding of `MagicEdenProvider.getBalance()`
(`10-magiceden-provider.js` lines 193–199): `requireConnected()`, then —
without any capability guard and without touching the wallet handle — it
resolves with the stub `{confirmed: 0, unconfirmed: 0, total: 0}`.  The
boolean records whether the underlying handle was invoked. -/
def magicEdenGetBalance (p : ProviderState) : Except String CanonBalance × Bool :=
  match requireConnected p with
  | some e => (.error e, false)
  | none => (.ok { confirmed := 0, unconfirmed := 0, total := 0 }, false)

/-! ## Pagination (`01-base-provider.js`, `getAllInscriptions`, lines 351–387) -/

/-- Result of a `getAllInscriptions` run: the accumulated items, the number
of page requests issued, and whether the safety-cap warning fired
(`pageCount >= maxPages`). -/
structure PageRun where
  items : List ℕ
  requests : ℕ
  warned : Bool
deriving DecidableEq, Repr

/-- The `while (pageCount < maxPages)` loop of `getAllInscriptions`.
`source cursor` is the page returned by `this.getInscriptions(cursor,
pageSize)` (the source accepts `{list}` / `{inscriptions}` wrappers or a
bare array; the page source is modelled as the unwrapped array).  `fuel` is
`maxPages - pageCount`, so the fuel-exhausted exit is exactly the
safety-cap exit, which is the only exit that warns.  Each fetch increments
the request count; pages are appended before the shorter-than-`pageSize`
check, except that an empty page breaks without appending. -/
def getAllGo (source : ℕ → List ℕ) (pageSize : ℕ) :
    (fuel cursor : ℕ) → (acc : List ℕ) → (req : ℕ) → PageRun
  | 0, _, acc, req => { items := acc, requests := req, warned := true }
  | fuel + 1, cursor, acc, req =>
    let inscriptions := source cursor
    if inscriptions.length = 0 then
      { items := acc, requests := req + 1, warned := false }
    else if inscriptions.length < pageSize then
      { items := acc ++ inscriptions, requests := req + 1, warned := false }
    else
      getAllGo source pageSize fuel (cursor + pageSize) (acc ++ inscriptions) (req + 1)

/-- Embedding of `BaseWalletProvider.getAllInscriptions()`:
`requireInstalled`, `requireConnected`, then the pagination loop with
`pageSize = 100` and `maxPages = 100`. -/
def getAllInscriptionsRun (p : ProviderState) (source : ℕ → List ℕ) :
    Except String PageRun :=
  match requireInstalled p with
  | some e => .error e
  | none =>
    match requireConnected p with
    | some e => .error e
    | none => .ok (getAllGo source 100 100 0 [] 0)

/-! ## Facade / connection-state store (`src/unnamed/part_008`) -/

/-- The connection-state snapshot `currentState`
(`part_008` lines 162–169).  `provider` holds the active `Provider`
instance, modelled by a numeric instance id; `balance` is the number the
facade stores (BTC, see `jsBalanceInBTC`). -/
structure ConnState where
  isConnected : Bool
  walletType : Option String
  address : Option String
  publicKey : Option String
  balance : Option ℚ
  provider : Option ℕ
deriving DecidableEq, Repr

/-- The initial (and disconnected) snapshot. -/
def initialConnState : ConnState :=
  { isConnected := false, walletType := none, address := none,
    publicKey := none, balance := none, provider := none }

/-- A partial state object passed to `setState(newState)`: `some` fields
overwrite, absent fields are kept from the current state (the
`{ ...currentState, ...newState }` spread merge). -/
structure StatePatch where
  isConnected : Option Bool := none
  walletType : Option (Option String) := none
  address : Option (Option String) := none
  publicKey : Option (Option String) := none
  balance : Option (Option ℚ) := none
  provider : Option (Option ℕ) := none

/-- The `{ ...currentState, ...newState }` merge performed by `setState`. -/
def applyPatch (s : ConnState) (p : StatePatch) : ConnState :=
  { isConnected := p.isConnected.getD s.isConnected
  , walletType := p.walletType.getD s.walletType
  , address := p.address.getD s.address
  , publicKey := p.publicKey.getD s.publicKey
  , balance := p.balance.getD s.balance
  , provider := p.provider.getD s.provider }

/-! ### Object-identity model of `setState` / `getState` (C4)

`setState` (`part_008` lines 173–176) builds one fresh merged object,
stores it in `currentState`, and then calls every subscriber with
`currentState` itself — the same object reference, not a copy.  `getState`
(lines 182–184) instead returns the fresh spread copy `{ ...currentState }`.
Object identity is modelled with an explicit heap of `ConnState` objects
addressed by numeric references. -/

/-- The store with explicit object identity: a heap of state objects, an
allocation counter, and the reference held in `currentState`. -/
structure StoreHeap where
  heap : ℕ → ConnState
  nextRef : ℕ
  canonical : ℕ

/-- `setState(newState)`: allocate the merged object, point `currentState`
at it, and return (with the new store) the reference passed to every
subscriber callback — which is `currentState` itself. -/
def setStateH (st : StoreHeap) (patch : StatePatch) : StoreHeap × ℕ :=
  let merged := applyPatch (st.heap st.canonical) patch
  let r := st.nextRef
  ({ heap := fun i => if i = r then merged else st.heap i
   , nextRef := r + 1
   , canonical := r }, r)

/-- `getState()`: allocate a fresh shallow copy `{ ...currentState }` and
return its reference; `currentState` keeps pointing at the original. -/
def getStateH (st : StoreHeap) : StoreHeap × ℕ :=
  let r := st.nextRef
  ({ heap := fun i => if i = r then st.heap st.canonical else st.heap i
   , nextRef := r + 1
   , canonical := st.canonical }, r)

/-- A caller mutating, in place, the object behind reference `r` (what a
subscriber can do to the snapshot it was handed). -/
def mutateRef (st : StoreHeap) (r : ℕ) (f : ConnState → ConnState) : StoreHeap :=
  { st with heap := fun i => if i = r then f (st.heap i) else st.heap i }

/-- A concrete initial store for the heap model. -/
def initialStoreH : StoreHeap :=
  { heap := fun _ => initialConnState, nextRef := 1, canonical := 0 }

/-! ### The facade `connect` / `disconnect` / `getBalance` operations -/

/-- The state-store writes a facade `connect(walletName)` call performs
(`part_008` lines 1023–1080), as atomic events: the unconditional
`setState({isConnected: true, walletType, address, publicKey, provider})`
issued when the wallet handshake promise resolves, and the follow-up
`setState({balance})` after the convenience balance fetch.  An interleaved
execution of several in-flight `connect` calls is a list of these events
applied in resolution order. -/
inductive FacadeEvent where
  | handshakeResolved (walletName : String) (pid : ℕ)
      (addr : Option String) (pk : Option String)
  | balanceFetched (balance : Option ℚ)
deriving DecidableEq

/-- The `setState` merge performed by one facade event. -/
def applyEvent (s : ConnState) : FacadeEvent → ConnState
  | .handshakeResolved w pid addr pk =>
      applyPatch s
        { isConnected := some true, walletType := some (some w),
          address := some addr, publicKey := some pk, provider := some (some pid) }
  | .balanceFetched b => applyPatch s { balance := some b }

/-- Applying a resolution order of facade events to the store. -/
def runEvents (s : ConnState) (es : List FacadeEvent) : ConnState :=
  es.foldl applyEvent s

/-- What the facade `getBalance` / `connect` balance conversion reads from
the value the provider's `getBalance()` resolved with: a bare number, an
object (only `.total` and `.confirmed` are read), or anything
null/undefined. -/
inductive JsBal where
  | number (n : ℚ)
  | obj (total confirmed : Option ℚ)
  | nullish
deriving DecidableEq

/-- The balance conversion of facade `getBalance` (`part_008` lines
236–253) and of the post-connect fetch (lines 1046–1066): a number strictly
between 0 and 1 is taken as already-BTC, any other number as satoshis
divided by `1e8`; for an object, `total || confirmed || 0` divided by
`1e8`; anything else is `0`. -/
def jsBalanceInBTC : JsBal → ℚ
  | .number n => if n < 1 ∧ 0 < n then n else n / 100000000
  | .obj total confirmed => jsOrQ total (jsOrQ confirmed 0) / 100000000
  | .nullish => 0

/-- A JavaScript value a facade operation can resolve with, as far as the
balance claims are concerned: a plain number or a
`{confirmed, unconfirmed, total}` object. -/
inductive JsValue where
  | num (q : ℚ)
  | balObj (confirmed unconfirmed total : ℚ)
deriving DecidableEq

/-- Embedding of the facade `getBalance()` (`part_008` lines 230–258):
throws `No wallet connected` when no provider is active; otherwise the
provider's `getBalance()` settles with `providerResult`; a rejection
propagates; a resolution is converted to a BTC number which is both stored
via `setState({balance})` and returned. -/
def facadeGetBalance (s : ConnState) (providerResult : Except String JsBal) :
    Except String JsValue × ConnState :=
  match s.provider with
  | none => (.error "No wallet connected", s)
  | some _ =>
    match providerResult with
    | .error e => (.error e, s)
    | .ok bal =>
      let b := jsBalanceInBTC bal
      (.ok (.num b), applyPatch s { balance := some (some b) })

/-- Result of a facade `connect(walletName)` call. -/
structure ConnectResult where
  newState : ConnState
  /-- Provider instance ids whose `disconnect()` the facade invoked during
  this `connect` call. -/
  disconnectedPids : List ℕ
  /-- What the `connect` promise settles with: the new provider's id, or
  the handshake rejection. -/
  returned : Except String ℕ

/-- Embedding of the facade `connect(walletName)` (`part_008` lines
1023–1080) for an installed wallet: a fresh provider instance `newPid` is
created, its `connect()` handshake settles with `handshake`; on rejection
the error propagates with no state write; on resolution the facade
unconditionally installs the new provider via `setState` (`addr` models
`result.address || provider.address`, `pk` likewise) and then runs the
convenience balance fetch, storing the converted number on success and
`null` on failure.  The previous provider is never sent a `disconnect()`
(the source contains no such call), which `disconnectedPids` records. -/
def facadeConnect (s : ConnState) (walletName : String) (newPid : ℕ)
    (handshake : Except String Unit) (addr pk : Option String)
    (balanceFetch : Except String JsBal) : ConnectResult :=
  match handshake with
  | .error e => { newState := s, disconnectedPids := [], returned := .error e }
  | .ok _ =>
    let s₁ := applyPatch s
      { isConnected := some true, walletType := some (some walletName),
        address := some addr, publicKey := some pk, provider := some (some newPid) }
    let s₂ :=
      match balanceFetch with
      | .ok bal => applyPatch s₁ { balance := some (some (jsBalanceInBTC bal)) }
      | .error _ => applyPatch s₁ { balance := some none }
    { newState := s₂, disconnectedPids := [], returned := .ok newPid }

/-- Embedding of the facade `disconnect()` (`part_008` lines 207–224): when
a provider is active its `disconnect()` is awaited inside `try`/`catch`
(a rejection is only logged); then `setState` resets every field to the
disconnected snapshot.  The result carries the settled promise, the final
state, and the list of snapshots published to subscribers. -/
def facadeDisconnect (s : ConnState) (providerDisconnect : Except String Unit) :
    Except String Unit × ConnState × List ConnState :=
  let afterProviderCall : Except String Unit :=
    match s.provider with
    | some _ =>
      -- `try { await currentState.provider.disconnect(); } catch { warn }`
      match providerDisconnect with
      | .ok _ => .ok ()
      | .error _ => .ok ()
    | none => .ok ()
  match afterProviderCall with
  | .ok _ =>
    let s' := applyPatch s
      { isConnected := some false, walletType := some none, address := some none,
        publicKey := some none, balance := some none, provider := some none }
    (.ok (), s', [s'])
  | .error e => (.error e, s, [])

/-! ## Shared lemmas about the pagination loop -/

/-- A run over `N` full pages followed by a short page: the loop issues
`N + 1` requests, accumulates `N * 100` items plus the short page, and does
not warn — provided the fuel (remaining page budget) exceeds `N`. -/
lemma getAllGo_partial (source : ℕ → List ℕ) :
    ∀ N : ℕ, ∀ (fuel cursor : ℕ) (acc : List ℕ) (req : ℕ),
      N < fuel →
      (∀ i, i < N → (source (cursor + i * 100)).length = 100) →
      (source (cursor + N * 100)).length < 100 →
      (getAllGo source 100 fuel cursor acc req).items.length
          = acc.length + N * 100 + (source (cursor + N * 100)).length ∧
        (getAllGo source 100 fuel cursor acc req).requests = req + (N + 1) ∧
        (getAllGo source 100 fuel cursor acc req).warned = false := by
  intro N
  induction N with
  | zero =>
    intro fuel cursor acc req hfuel _ hlast
    obtain ⟨fuel', rfl⟩ : ∃ f, fuel = f + 1 := ⟨fuel - 1, by omega⟩
    simp only [Nat.zero_mul, Nat.add_zero] at hlast
    by_cases h0 : (source cursor).length = 0
    · simp [getAllGo, h0]
    · simp [getAllGo, h0, hlast]
  | succ n ih =>
    intro fuel cursor acc req hfuel hfull hlast
    obtain ⟨fuel', rfl⟩ : ∃ f, fuel = f + 1 := ⟨fuel - 1, by omega⟩
    have h0 : (source cursor).length = 100 := by
      have := hfull 0 (by omega)
      simpa using this
    have hrec := ih fuel' (cursor + 100) (acc ++ source cursor) (req + 1)
      (by omega)
      (by
        intro i hi
        have := hfull (i + 1) (by omega)
        have harith : cursor + (i + 1) * 100 = cursor + 100 + i * 100 := by ring
        rwa [harith] at this)
      (by
        have harith : cursor + (n + 1) * 100 = cursor + 100 + n * 100 := by ring
        rwa [harith] at hlast)
    have harith : cursor + (n + 1) * 100 = cursor + 100 + n * 100 := by ring
    rw [harith]
    simp only [getAllGo, h0]
    norm_num
    refine ⟨?_, ?_, ?_⟩
    · rw [hrec.1]
      simp
      omega
    · rw [hrec.2.1]
      omega
    · exact hrec.2.2

/-- A run in which every fetched page is full: the loop spends its whole
fuel, issuing one request per unit of fuel, and exits through the
safety-cap branch with the warning flag set. -/
lemma getAllGo_full (source : ℕ → List ℕ) :
    ∀ (fuel cursor : ℕ) (acc : List ℕ) (req : ℕ),
      (∀ i, i < fuel → (source (cursor + i * 100)).length = 100) →
      (getAllGo source 100 fuel cursor acc req).items.length = acc.length + fuel * 100 ∧
        (getAllGo source 100 fuel cursor acc req).requests = req + fuel ∧
        (getAllGo source 100 fuel cursor acc req).warned = true := by
  intro fuel
  induction fuel with
  | zero => intro cursor acc req _; simp [getAllGo]
  | succ f ih =>
    intro cursor acc req hfull
    have h0 : (source cursor).length = 100 := by
      have := hfull 0 (by omega)
      simpa using this
    have hrec := ih (cursor + 100) (acc ++ source cursor) (req + 1)
      (by
        intro i hi
        have := hfull (i + 1) (by omega)
        have harith : cursor + (i + 1) * 100 = cursor + 100 + i * 100 := by ring
        rwa [harith] at this)
    simp only [getAllGo, h0]
    norm_num
    refine ⟨?_, ?_, ?_⟩
    · rw [hrec.1]; simp; omega
    · rw [hrec.2.1]; omega
    · exact hrec.2.2

/-! ## Concrete fixtures -/

/-- A store snapshot with wallet "A" (provider instance 1) active. -/
def stateA : ConnState :=
  { isConnected := true, walletType := some "A", address := some "bc1qA",
    publicKey := none, balance := none, provider := some 1 }

/-- A connected, installed provider with empty feature overrides. -/
def baseConnectedProvider : ProviderState :=
  { name := "UniSat", isConnected := true, address := some "bc1q",
    walletInstance := some {}, features := .obj [] }

/-- Folding a run of balance-fetch events never touches `walletType`. -/
lemma runEvents_balanceOnly_walletType (post : List FacadeEvent)
    (hpost : ∀ e ∈ post, ∃ b, e = FacadeEvent.balanceFetched b) :
    ∀ s : ConnState, (runEvents s post).walletType = s.walletType := by
  induction post with
  | nil => intro s; rfl
  | cons e rest ih =>
    intro s
    obtain ⟨b, rfl⟩ := hpost e (by simp)
    have hrest : ∀ e ∈ rest, ∃ b, e = FacadeEvent.balanceFetched b := by
      intro e he; exact hpost e (by simp [he])
    simp [runEvents] at ih ⊢
    rw [ih hrest]
    rfl

/-! ## C1 — connection-state race -/

/-- C1, as stated, is false: with `connect("A")` issued before
`connect("B")` but A's handshake resolving after B's, the late resolution
overwrites the winner and the final `walletType` is `"A"`, not `"B"`. -/
theorem c1_counterexample :
    (runEvents initialConnState
      [ .handshakeResolved "B" 2 (some "bc1qB") none
      , .handshakeResolved "A" 1 (some "bc1qA") none ]).walletType = some "A"
      ∧ (some "A" : Option String) ≠ some "B" := by
  constructor
  · rfl
  · simp

/-- C1 (amended): the facade's `connect` writes the connection state
unconditionally on handshake resolution, with no "is this still the
provider we tried to activate" guard, so the final `walletType` is that of
whichever connect's handshake resolved last — regardless of issue order;
subsequent balance-fetch writes do not change it. -/
theorem c1_last_resolution_wins (s : ConnState) (pre post : List FacadeEvent)
    (w : String) (pid : ℕ) (addr pk : Option String)
    (hpost : ∀ e ∈ post, ∃ b, e = FacadeEvent.balanceFetched b) :
    (runEvents s (pre ++ FacadeEvent.handshakeResolved w pid addr pk :: post)).walletType
      = some w := by
  have hsplit :
      runEvents s (pre ++ FacadeEvent.handshakeResolved w pid addr pk :: post)
        = runEvents (applyEvent (runEvents s pre) (.handshakeResolved w pid addr pk)) post := by
    simp [runEvents, List.foldl_append]
  rw [hsplit, runEvents_balanceOnly_walletType post hpost]
  rfl

/-- Witness for `c1_last_resolution_wins`: A resolves, then B resolves,
then a balance fetch lands — `walletType` ends as `"B"`. -/
theorem c1_witness :
    (∀ e ∈ [FacadeEvent.balanceFetched (some 1)],
        ∃ b, e = FacadeEvent.balanceFetched b) ∧
    (runEvents initialConnState
        ([FacadeEvent.handshakeResolved "A" 1 (some "bc1qA") none]
          ++ FacadeEvent.handshakeResolved "B" 2 (some "bc1qB") none
            :: [FacadeEvent.balanceFetched (some 1)])).walletType = some "B" :=
  ⟨by simp, c1_last_resolution_wins initialConnState _ _ "B" 2 (some "bc1qB") none (by simp)⟩

/-! ## C3 — teardown of the previous provider on connect -/

/-- C3, as stated, is false: connecting to wallet "B" while "A" (provider
instance 1) is active installs provider 2 without ever invoking provider
1's `disconnect` — the teardown the claim requires does not happen. -/
theorem c3_counterexample :
    (facadeConnect stateA "B" 2 (.ok ()) (some "bc1qB") none (.error "no balance")).disconnectedPids
        = [] ∧
    (facadeConnect stateA "B" 2 (.ok ()) (some "bc1qB") none (.error "no balance")).newState.provider
        = some 2 ∧
    1 ∉ (facadeConnect stateA "B" 2 (.ok ()) (some "bc1qB") none (.error "no balance")).disconnectedPids := by
  refine ⟨rfl, rfl, ?_⟩
  simp [facadeConnect]

/-- C3 (amended): the facade's `connect` never invokes any previous
provider's `disconnect`; on handshake success it merely overwrites the
store's provider reference with the new instance (so the store keeps at
most one reference), and on handshake failure the previous state — old
provider included — is left untouched. -/
theorem c3_no_teardown (s : ConnState) (w : String) (newPid : ℕ)
    (addr pk : Option String) (bf : Except String JsBal) :
    ((facadeConnect s w newPid (.ok ()) addr pk bf).disconnectedPids = [] ∧
      (facadeConnect s w newPid (.ok ()) addr pk bf).newState.provider = some newPid) ∧
    ∀ e : String,
      (facadeConnect s w newPid (.error e) addr pk bf).disconnectedPids = [] ∧
        (facadeConnect s w newPid (.error e) addr pk bf).newState = s := by
  refine ⟨⟨rfl, ?_⟩, fun e => ⟨rfl, rfl⟩⟩
  cases bf <;> rfl

/-! ## C10 — facade disconnect never rejects -/

/-- C10: `disconnect()` always resolves — even when the active provider's
own `disconnect` rejects, the error is swallowed — after resetting the
store to the disconnected snapshot and publishing that snapshot to
subscribers. -/
theorem c10_disconnect_never_rejects (s : ConnState) (pd : Except String Unit) :
    facadeDisconnect s pd = (.ok (), initialConnState, [initialConnState]) := by
  cases h : s.provider <;> cases pd <;>
    simp [facadeDisconnect, h, applyPatch, initialConnState]

/-! ## C4 — what subscribers receive from `setState` -/

/-- The patch a successful connect writes, used as the C4 scenario. -/
def c4Patch : StatePatch :=
  { isConnected := some true, walletType := some (some "A") }

/-- The store and the reference handed to subscribers after one `setState`. -/
def c4Published : StoreHeap × ℕ := setStateH initialStoreH c4Patch

/-- A subscriber mutating the snapshot object it was handed. -/
def c4Mutated : StoreHeap :=
  mutateRef c4Published.1 c4Published.2
    (fun s => { s with walletType := some "EVIL" })

/-- C4, as stated, is false: `setState` publishes `currentState` itself,
not a copy, so a subscriber writing to the object it received changes the
canonical state object held by the store (here from `walletType = "A"` to
`"EVIL"`). -/
theorem c4_counterexample :
    (c4Published.1.heap c4Published.1.canonical).walletType = some "A" ∧
    (c4Mutated.heap c4Mutated.canonical).walletType = some "EVIL" := by
  constructor <;> rfl

/-- C4 (amended): subscriber callbacks are invoked synchronously with the
canonical state object itself — the published reference is the store's
canonical reference, so any in-place mutation through it rewrites the
canonical state; only `getState` hands out a fresh shallow copy (a distinct
reference with equal contents). -/
theorem c4_published_is_canonical (st : StoreHeap) (patch : StatePatch)
    (f : ConnState → ConnState) (h : st.canonical < st.nextRef) :
    (setStateH st patch).2 = (setStateH st patch).1.canonical ∧
    (mutateRef (setStateH st patch).1 (setStateH st patch).2 f).heap
        (mutateRef (setStateH st patch).1 (setStateH st patch).2 f).canonical
      = f ((setStateH st patch).1.heap (setStateH st patch).1.canonical) ∧
    (getStateH st).2 ≠ (getStateH st).1.canonical ∧
    (getStateH st).1.heap (getStateH st).2 = st.heap st.canonical := by
  refine ⟨rfl, ?_, ?_, ?_⟩
  · simp [setStateH, mutateRef]
  · simp only [getStateH]
    omega
  · simp [getStateH]

/-- Witness for `c4_published_is_canonical` at the concrete initial store. -/
theorem c4_witness :
    initialStoreH.canonical < initialStoreH.nextRef ∧
    (setStateH initialStoreH c4Patch).2 = (setStateH initialStoreH c4Patch).1.canonical :=
  ⟨by decide,
    (c4_published_is_canonical initialStoreH c4Patch id (by decide)).1⟩

/-! ## C5 — the facade `getBalance` return shape -/

/-- C5, as stated, is false: with a provider active that reports the bare
satoshi number `3690`, the facade's `getBalance()` resolves with the plain
number `3690 / 1e8` (BTC), not a canonical
`{confirmed, unconfirmed, total}` object. -/
theorem c5_counterexample :
    (facadeGetBalance stateA (.ok (.number 3690))).1
        = .ok (.num (3690 / 100000000)) ∧
    (Except.ok (JsValue.num (3690 / 100000000)) : Except String JsValue)
        ≠ .ok (.balObj 3690 0 3690) := by
  constructor
  · simp [facadeGetBalance, stateA, jsBalanceInBTC]
  · simp

/-- C5 (amended): whenever a provider is active and its `getBalance()`
resolves, the facade's `getBalance()` resolves with a single number (the
BTC conversion of the provider value) which it also stores in the state
snapshot; it never resolves with a `{confirmed, unconfirmed, total}`
object. -/
theorem c5_returns_number (s : ConnState) (pid : ℕ) (bal : JsBal)
    (h : s.provider = some pid) :
    (∃ q, (facadeGetBalance s (.ok bal)).1 = .ok (.num q) ∧
        (facadeGetBalance s (.ok bal)).2.balance = some q) ∧
    ∀ c u t, (facadeGetBalance s (.ok bal)).1 ≠ .ok (.balObj c u t) := by
  constructor
  · exact ⟨jsBalanceInBTC bal, by simp [facadeGetBalance, h], by simp [facadeGetBalance, h, applyPatch]⟩
  · intro c u t
    simp [facadeGetBalance, h]

/-- Witness for `c5_returns_number` with wallet "A" active and a bare
number balance. -/
theorem c5_witness :
    stateA.provider = some 1 ∧
    ∀ c u t, (facadeGetBalance stateA (.ok (.number 3690))).1 ≠ .ok (.balObj c u t) :=
  ⟨rfl, (c5_returns_number stateA 1 (.number 3690) rfl).2⟩

/-! ## C2 — capability guarding of facade operations -/

/-- A connected Magic Eden provider instance. -/
def magicEdenConnected : ProviderState :=
  { name := "MagicEden", isConnected := true, address := some "bc1qme",
    walletInstance := some {}, features := magicEdenFeatures }

/-- A store snapshot with the Magic Eden provider (instance 1) active. -/
def stateME : ConnState :=
  { isConnected := true, walletType := some "MagicEden", address := some "bc1qme",
    publicKey := none, balance := none, provider := some 1 }

/-- C2, as stated, is false: Magic Eden's capability descriptor declares
`getBalance: false`, yet invoking `getBalance` while Magic Eden is active
does not reject with an unsupported-operation error — the adapter resolves
with the stub `{confirmed: 0, unconfirmed: 0, total: 0}` (without touching
the handle), and the facade pass-through, which adds no capability check,
then resolves with the number `0`. -/
theorem c2_counterexample :
    supportsMethod magicEdenFeatures ["getBalance"] = false ∧
    magicEdenGetBalance magicEdenConnected
        = (.ok { confirmed := 0, unconfirmed := 0, total := 0 }, false) ∧
    (facadeGetBalance stateME (.ok (.obj (some 0) (some 0)))).1 = .ok (.num 0) := by
  refine ⟨rfl, rfl, ?_⟩
  simp [facadeGetBalance, stateME, jsBalanceInBTC, jsOrQ]

/-- C2 (amended): only the operations whose default implementation routes
through `safeCall` are capability-guarded.  For those — `pushPsbt` and
`pushTx` among them — a `false` flag on a connected, installed provider
makes the call reject with an error naming the wallet and the operation,
and the underlying handle's method is never invoked.  Operations outside
the `safeCall` set are not guarded (see the counterexample). -/
theorem c2_safecall_guard (p : ProviderState) (hex raw : String)
    (w : WalletHandle) (hInst : p.walletInstance = some w)
    (hConn : p.isConnected = true) (hAddr : jsTruthyStr p.address = true)
    (hPsbt : supportsMethod p.features ["pushPsbt"] = false)
    (hTx : supportsMethod p.features ["pushTx"] = false) :
    basePushPsbt p hex = (.error (p.name ++ " does not support " ++ "pushPsbt"), false) ∧
    basePushTx p raw = (.error (p.name ++ " does not support " ++ "pushTx"), false) := by
  constructor <;>
    simp [basePushPsbt, basePushTx, requireInstalled, requireConnected, safeCall,
      hInst, hConn, hAddr, hPsbt, hTx]

/-- Witness for `c2_safecall_guard`: the connected Magic Eden provider,
whose `pushPsbt`/`pushTx` flags are `false`, rejects both broadcasts with
errors naming the wallet and the operation, handle untouched. -/
theorem c2_witness :
    magicEdenConnected.walletInstance = some {} ∧
    basePushPsbt magicEdenConnected "psbt0" =
      (.error "MagicEden does not support pushPsbt", false) ∧
    basePushTx magicEdenConnected "rawtx0" =
      (.error "MagicEden does not support pushTx", false) :=
  ⟨rfl,
    (c2_safecall_guard magicEdenConnected "psbt0" "rawtx0" {} rfl rfl rfl rfl rfl).1,
    (c2_safecall_guard magicEdenConnected "psbt0" "rawtx0" {} rfl rfl rfl rfl rfl).2⟩

/-! ## C6 — the `{confirm, pending}` balance scenario -/

/-- The raw wallet balance `{confirm: 100, pending: 50}`. -/
def confirmPendingInput : BalanceInput :=
  .obj { confirm := some 100, pending := some 50 }

/-- C6, as stated, is false: the `confirm` field-name variant is read only
inside the `UniSat` branch of `normalizeBalance`, so under the `"OKX"`
discriminator (no wallet-specific branch) `{confirm: 100, pending: 50}`
normalizes to `{confirmed: 0, unconfirmed: 50, total: 50}`, not
`{confirmed: 100, unconfirmed: 50, total: 150}`. -/
theorem c6_counterexample :
    normalizeBalance confirmPendingInput "OKX"
        = { confirmed := 0, unconfirmed := 50, total := 50 } ∧
    ({ confirmed := 0, unconfirmed := 50, total := 50 } : CanonBalance)
        ≠ { confirmed := 100, unconfirmed := 50, total := 150 } := by
  constructor
  · simp +decide [normalizeBalance, confirmPendingInput, jsOrQ]
  · simp

/-- C6 (amended): only the `"UniSat"` discriminator maps
`{confirm: 100, pending: 50}` to the canonical
`{confirmed: 100, unconfirmed: 50, total: 150}`; the `"Xverse"` branch
yields all zeros, and every other discriminator yields
`{confirmed: 0, unconfirmed: 50, total: 50}`. -/
theorem c6_unisat_only (w : String) (hx : w ≠ "Xverse") (hu : w ≠ "UniSat") :
    normalizeBalance confirmPendingInput "UniSat"
        = { confirmed := 100, unconfirmed := 50, total := 150 } ∧
    normalizeBalance confirmPendingInput "Xverse"
        = { confirmed := 0, unconfirmed := 0, total := 0 } ∧
    normalizeBalance confirmPendingInput w
        = { confirmed := 0, unconfirmed := 50, total := 50 } := by
  refine ⟨?_, ?_, ?_⟩
  · norm_num [normalizeBalance, confirmPendingInput, jsOrQ]
  · norm_num [normalizeBalance, confirmPendingInput, jsOrQ]
  · simp only [normalizeBalance, confirmPendingInput]
    norm_num [jsOrQ]

/-- Witness for `c6_unisat_only` at the `"OKX"` discriminator. -/
theorem c6_witness :
    ("OKX" : String) ≠ "Xverse" ∧
    normalizeBalance confirmPendingInput "OKX"
        = { confirmed := 0, unconfirmed := 50, total := 50 } :=
  ⟨by simp, (c6_unisat_only "OKX" (by simp) (by simp)).2.2⟩

/-! ## C7 — idempotence of balance normalization -/

/-- C7, as stated, is false: the already-canonical object
`{confirmed: 0, unconfirmed: 50, total: 50}` is not a fixed point under the
`"OKX"` discriminator — JavaScript `||` treats the `0` in `confirmed` as
missing and falls through to the stale `total`, producing
`{confirmed: 50, unconfirmed: 50, total: 100}`. -/
theorem c7_counterexample :
    normalizeBalance (canonObj 0 50) "OKX"
        = { confirmed := 50, unconfirmed := 50, total := 100 } ∧
    ({ confirmed := 50, unconfirmed := 50, total := 100 } : CanonBalance)
        ≠ { confirmed := 0, unconfirmed := 50, total := 50 } := by
  constructor
  · simp +decide [normalizeBalance, canonObj, jsOrQ]
    norm_num
  · simp

/-- C7 (amended): normalization of an already-canonical
`{confirmed: c, unconfirmed: u, total: c + u}` is the identity for every
wallet-name discriminator provided `c > 0` or `u = 0`; the `c = 0, u > 0`
corner is repaired only by the `"Xverse"` and `"UniSat"` branches (see the
counterexample for the general case). -/
theorem c7_idempotent_when_confirmed_positive (c u : ℕ) (w : String)
    (h : 0 < c ∨ u = 0) :
    normalizeBalance (canonObj c u) w
      = { confirmed := (c : ℚ), unconfirmed := (u : ℚ), total := (c : ℚ) + (u : ℚ) } := by
  simp only [normalizeBalance, canonObj]
  have hcu : jsOrQ (some ((c : ℚ) + (u : ℚ)))
      (jsOrQ (some (c : ℚ)) (jsOrQ (some (u : ℚ)) 0) + jsOrQ (some (u : ℚ)) (jsOrQ none 0)) =
      jsOrQ (some ((c : ℚ) + (u : ℚ)))
      (jsOrQ (some (c : ℚ)) (jsOrQ (some (u : ℚ)) 0) + jsOrQ (some (u : ℚ)) (jsOrQ none 0)) := rfl
  split
  · -- "Xverse" branch
    simp [jsOrQ]
    rcases eq_or_ne c 0 with hc | hc
    · subst hc
      rcases eq_or_ne u 0 with hu | hu
      · subst hu; norm_num
      · simp [hu, Nat.cast_eq_zero]
    · simp [hc, Nat.cast_eq_zero]
      rcases eq_or_ne u 0 with hu | hu
      · subst hu; norm_num
      · simp [hu, Nat.cast_eq_zero]
  · -- "UniSat" branch
    simp [jsOrQ]
    rcases eq_or_ne c 0 with hc | hc
    · subst hc
      rcases eq_or_ne u 0 with hu | hu
      · subst hu; norm_num
      · simp [hu, Nat.cast_eq_zero]
    · simp [hc, Nat.cast_eq_zero]
      rcases eq_or_ne u 0 with hu | hu
      · subst hu; norm_num
      · simp [hu, Nat.cast_eq_zero]
  · -- default branch
    rcases h with hc | hu
    · have hc' : ((c : ℚ)) ≠ 0 := by
        exact_mod_cast Nat.pos_iff_ne_zero.mp hc
      simp [jsOrQ, hc']
      rcases eq_or_ne u 0 with hu | hu
      · subst hu; norm_num
      · simp [hu, Nat.cast_eq_zero]
    · subst hu
      simp [jsOrQ]
      rcases eq_or_ne c 0 with hc | hc
      · subst hc; norm_num
      · simp [hc, Nat.cast_eq_zero]

/-- Witness for `c7_idempotent_when_confirmed_positive` at `c = 3`,
`u = 7`, discriminator `"OKX"`. -/
theorem c7_witness :
    (0 < 3 ∨ (7 : ℕ) = 0) ∧
    normalizeBalance (canonObj 3 7) "OKX"
      = { confirmed := ((3 : ℕ) : ℚ), unconfirmed := ((7 : ℕ) : ℚ),
          total := ((3 : ℕ) : ℚ) + ((7 : ℕ) : ℚ) } :=
  ⟨Or.inl (by norm_num),
    c7_idempotent_when_confirmed_positive 3 7 "OKX" (Or.inl (by norm_num))⟩

/-! ## C8 — pagination request / item counts -/

/-- A page source with exactly 100 full pages and then a 1-item page: the
shape the claim describes with `N = 100`, `k = 1`. -/
def c8Source : ℕ → List ℕ := fun c => if c < 10000 then List.replicate 100 0 else [0]

/-- C8, as stated, is false at `N = 100` (the safety cap): for a source
with 100 full pages followed by a 1-item page, `getAllInscriptions()` stops
at the cap after 100 requests with 10000 items — not the `N + 1 = 101`
requests and `N * 100 + 1 = 10001` items the claim predicts. -/
theorem c8_counterexample :
    getAllInscriptionsRun baseConnectedProvider c8Source
        = .ok (getAllGo c8Source 100 100 0 [] 0) ∧
    (getAllGo c8Source 100 100 0 [] 0).requests = 100 ∧
    (getAllGo c8Source 100 100 0 [] 0).items.length = 10000 ∧
    (100 : ℕ) ≠ 100 + 1 ∧ (10000 : ℕ) ≠ 100 * 100 + 1 := by
  have hfull := getAllGo_full c8Source 100 0 [] 0 (by
    intro i hi
    simp only [c8Source, Nat.zero_add]
    rw [if_pos (by omega)]
    simp)
  refine ⟨?_, ?_, ?_, by omega, by omega⟩
  · simp [getAllInscriptionsRun, requireInstalled, requireConnected,
      baseConnectedProvider, jsTruthyStr]
  · exact hfull.2.1
  · simpa using hfull.1

/-- C8 (amended): for a connected, installed provider whose page source
returns exactly 100 (= `pageSize`) items on each of the first `N` pages and
then `k < 100` items, with `N` below the 100-page safety cap,
`getAllInscriptions()` returns exactly `N * 100 + k` items in `N + 1` page
requests, without the safety-cap warning. -/
theorem c8_pagination_count (p : ProviderState) (source : ℕ → List ℕ) (N k : ℕ)
    (w : WalletHandle) (hInst : p.walletInstance = some w)
    (hConn : p.isConnected = true) (hAddr : jsTruthyStr p.address = true)
    (hN : N < 100) (hk : k < 100)
    (hfull : ∀ i, i < N → (source (i * 100)).length = 100)
    (hlast : (source (N * 100)).length = k) :
    ∃ r, getAllInscriptionsRun p source = .ok r ∧
      r.items.length = N * 100 + k ∧ r.requests = N + 1 ∧ r.warned = false := by
  have hrun := getAllGo_partial source N 100 0 [] 0 (by omega)
    (by intro i hi; simpa using hfull i hi)
    (by simpa [hlast] using hk)
  refine ⟨getAllGo source 100 100 0 [] 0, ?_, ?_, ?_, hrun.2.2⟩
  · simp [getAllInscriptionsRun, requireInstalled, requireConnected, hInst, hConn, hAddr]
  · have := hrun.1
    simpa [hlast] using this
  · simpa using hrun.2.1

/-- Witness for `c8_pagination_count`: one full page then a 3-item page
yields 103 items in 2 requests. -/
theorem c8_witness :
    ((1 : ℕ) < 100 ∧ (3 : ℕ) < 100) ∧
    ∃ r, getAllInscriptionsRun baseConnectedProvider
        (fun c => if c < 100 then List.replicate 100 0 else List.replicate 3 1) = .ok r ∧
      r.items.length = 1 * 100 + 3 ∧ r.requests = 1 + 1 ∧ r.warned = false :=
  ⟨⟨by omega, by omega⟩,
    c8_pagination_count baseConnectedProvider
      (fun c => if c < 100 then List.replicate 100 0 else List.replicate 3 1)
      1 3 {} rfl rfl rfl (by omega) (by omega)
      (by
        intro i hi
        show (if i * 100 < 100 then List.replicate 100 0 else List.replicate 3 1).length = 100
        rw [if_pos (by omega)]
        simp)
      (by norm_num)⟩

/-! ## C9 — pagination safety cap -/

/-- C9: for a connected, installed provider whose page source always
returns a full page, `getAllInscriptions()` terminates at the 100-page
safety cap: it resolves (no rejection) with the warning flag set, exactly
100 page requests, and the accumulated partial, non-empty list of
`100 * 100 = 10000` items. -/
theorem c9_safety_cap (p : ProviderState) (source : ℕ → List ℕ)
    (w : WalletHandle) (hInst : p.walletInstance = some w)
    (hConn : p.isConnected = true) (hAddr : jsTruthyStr p.address = true)
    (hfull : ∀ c, (source c).length = 100) :
    ∃ r, getAllInscriptionsRun p source = .ok r ∧ r.warned = true ∧
      r.requests = 100 ∧ r.items.length = 10000 ∧ r.items ≠ [] := by
  have hrun := getAllGo_full source 100 0 [] 0 (by intro i _; exact hfull _)
  refine ⟨getAllGo source 100 100 0 [] 0, ?_, hrun.2.2, ?_, ?_, ?_⟩
  · simp [getAllInscriptionsRun, requireInstalled, requireConnected, hInst, hConn, hAddr]
  · simpa using hrun.2.1
  · simpa using hrun.1
  · have hlen : (getAllGo source 100 100 0 [] 0).items.length = 10000 := by
      simpa using hrun.1
    intro hnil
    rw [hnil] at hlen
    simp at hlen

/-- Witness for `c9_safety_cap`: the constant full-page source. -/
theorem c9_witness :
    (∀ c, ((fun _ : ℕ => List.replicate 100 0) c).length = 100) ∧
    ∃ r, getAllInscriptionsRun baseConnectedProvider (fun _ => List.replicate 100 0)
        = .ok r ∧ r.warned = true ∧ r.requests = 100 ∧
      r.items.length = 10000 ∧ r.items ≠ [] :=
  ⟨by intro c; simp,
    c9_safety_cap baseConnectedProvider (fun _ => List.replicate 100 0) {}
      rfl rfl rfl (by intro c; simp)⟩

end NexusOcw
